import Mathlib

/-!
WattsMyBill Analysis Orchestration Engine — verification development

Shallow embedding of the analysis-orchestration engine of the
`wattsmybill-multiagent` repository, together with the client-side
computations found in the repository's React front-end
(`src/unnamed/part_001`, i.e. the ADK-integrated `App.js`, and
`src/wattsmybill-frontend/src/App.js`).

The repository's visible source contains the front-end, CI and deployment
configuration; the back-end orchestrator itself (job store, stage pipeline,
result normalizer, status reporter) is not present under `src/`, only its
HTTP callers in the front-end are.  Those back-end parts are therefore
modelled from the specification, and every such definition carries a doc
comment starting with `Modelled from the spec:`.  Front-end computations
(`getBillingPeriodText`, the step-index calculation of `pollProgress` /
`checkProgress`, the bill-analysis card and total-savings card arithmetic)
are translated directly from the JavaScript source.
-/

/-- Job status, as in the spec's AnalysisJob data model:
`pending | running | completed | failed`. -/
inductive Status where
  | pending
  | running
  | completed
  | failed
deriving DecidableEq, Repr

/-- Execution-strategy tag: `coordinated` (ADK-integrated back-end) or
`standalone` (local fallback analyzers). -/
inductive Strategy where
  | coordinated
  | standalone
deriving DecidableEq, Repr

/-- The `processing_method` string the client sees for each strategy.
The front-end compares this value against the literal
`adk_integrated` (part_001, lines 410, 533, 977); the spec's downgrade
scenario names the other value `standalone`. -/
def Strategy.methodString : Strategy → String
  | .coordinated => "adk_integrated"
  | .standalone => "standalone"

/-- Payload of the bill-analysis stage.  Modelled from the spec:
bill-analysis "produces retailer, usage, cost, solar-presence" (§4.2), and
the billing-period type feeds the `billing_context` of the result. -/
structure BillAnalysisPayload where
  retailer : String
  usage_kwh : ℚ
  cost : ℚ
  has_solar : Bool
  period_quarterly : Bool
deriving DecidableEq, Repr

/-- Payload of the market-research stage.  Modelled from the spec:
"produces best alternative plan + savings estimate" (§4.2). -/
structure MarketPayload where
  best_plan_retailer : String
  best_plan_name : String
  annual_savings : ℚ
  confidence : String
deriving DecidableEq, Repr

/-- Payload of the rebate-hunt stage.  Modelled from the spec:
"produces rebate list + total" (§4.2); a rebate is a name + value pair. -/
structure RebatePayload where
  rebates : List (String × ℚ)
deriving DecidableEq, Repr

/-- Payload of the usage-optimization stage.  Modelled from the spec:
"produces advice + efficiency savings estimate" (§4.2). -/
structure UsagePayload where
  advice : List String
  annual_savings : ℚ
deriving DecidableEq, Repr

/-- Outcome of each stage of one job: `none` means the stage failed,
`some p` means it succeeded with payload `p`.  Modelled from the spec:
`Execute(job context, prior outputs) → (payload, ok)` (§4.2); the
savings-synthesis stage's own math is out of scope (§1), so only its
success flag is kept. -/
structure StageOutcomes where
  bill : Option BillAnalysisPayload
  market : Option MarketPayload
  rebate : Option RebatePayload
  usage : Option UsagePayload
  synthesis_ok : Bool
deriving DecidableEq, Repr

/-- Billing context inside the normalized result, as read by the front-end:
`results.billing_context.period_type`, `.period_description`,
`.annual_multiplier` (part_001, lines 452-466). -/
structure BillingContext where
  period_type : String
  period_description : String
  annual_multiplier : ℚ
deriving DecidableEq, Repr

/-- Bill cost fields as read by the front-end bill-analysis card
(part_001, line 990): `billData.quarterly_cost || billData.total_cost ||
billData.total_amount || 712.5`; each field may be absent. -/
structure BillData where
  quarterly_cost : Option ℚ
  total_cost : Option ℚ
  total_amount : Option ℚ
deriving DecidableEq, Repr

/-- The single external-facing result schema.  Modelled from the spec:
bill summary (retailer, billing-period type, usage, cost), market
comparison (best plan, savings estimate, confidence), rebate list
(name + value pairs, total), usage-optimization advice, solar analysis,
and an aggregate total-savings figure (§3); field names follow the JSON
keys the front-end reads. -/
structure NormalizedResult where
  processing_method : String
  billing_context : BillingContext
  bill_data : BillData
  retailer : String
  usage_kwh : ℚ
  best_plan_retailer : String
  best_plan_name : String
  market_max_annual_savings : ℚ
  market_confidence : String
  applicable_rebates : List (String × ℚ)
  total_rebate_value : ℚ
  rebate_count : ℕ
  usage_advice : List String
  usage_total_annual_savings : ℚ
  has_solar : Bool
  total_savings : ℚ
deriving DecidableEq, Repr

/-- Total value of a rebate list: sum of the value components. -/
def rebateTotal (rs : List (String × ℚ)) : ℚ :=
  (rs.map Prod.snd).sum

/-- Defaulted bill payload used when the bill-analysis payload is missing.
Modelled from the spec: missing payloads are replaced by
"stage-defined defaults / zero-value placeholders" (§4.1, §4.4). -/
def defaultBillPayload : BillAnalysisPayload :=
  { retailer := "", usage_kwh := 0, cost := 0, has_solar := false,
    period_quarterly := false }

/-- Defaulted market payload (zero savings).  Modelled from the spec (§4.4). -/
def defaultMarketPayload : MarketPayload :=
  { best_plan_retailer := "", best_plan_name := "", annual_savings := 0,
    confidence := "" }

/-- Defaulted rebate payload (empty rebate list).  Modelled from the
spec (§4.4, §8: "empty rebate list"). -/
def defaultRebatePayload : RebatePayload :=
  { rebates := [] }

/-- Defaulted usage payload (no advice, zero savings).  Modelled from the
spec (§4.4). -/
def defaultUsagePayload : UsagePayload :=
  { advice := [], annual_savings := 0 }

/-- Billing context produced at normalization time.  Modelled from the
spec: the billing-period type is part of the bill summary (§3) and the
end-to-end scenario fixes the quarterly annual multiplier at 4 (§8:
"annualized cost (×4 for quarterly)"). -/
def billingContextOf (b : BillAnalysisPayload) : BillingContext :=
  if b.period_quarterly then
    { period_type := "quarterly",
      period_description := "Based on your quarterly bill",
      annual_multiplier := 4 }
  else
    { period_type := "annual",
      period_description := "Based on annual estimates",
      annual_multiplier := 1 }

/-- Modelled from the spec: `Normalize(strategyTag, []StageResult) →
NormalizedResult`, a pure function that substitutes stage-defined defaults
for missing/failed stage payloads (§4.4) and computes the aggregate
total-savings figure as market-switch savings + rebate total +
usage-optimization savings if coordinated, or market + rebate only if
standalone (§8); when savings-synthesis fails the total is the sum of
whatever component savings are available (§4.1), which is the same sum, so
the synthesis flag does not change the value. -/
def Normalize (tag : Strategy) (so : StageOutcomes) : NormalizedResult :=
  let b := so.bill.getD defaultBillPayload
  let m := so.market.getD defaultMarketPayload
  let reb := so.rebate.getD defaultRebatePayload
  let u := so.usage.getD defaultUsagePayload
  let usageComponent : ℚ := if tag = Strategy.coordinated then u.annual_savings else 0
  { processing_method := tag.methodString
    billing_context := billingContextOf b
    bill_data := { quarterly_cost := some b.cost, total_cost := none,
                   total_amount := none }
    retailer := b.retailer
    usage_kwh := b.usage_kwh
    best_plan_retailer := m.best_plan_retailer
    best_plan_name := m.best_plan_name
    market_max_annual_savings := m.annual_savings
    market_confidence := m.confidence
    applicable_rebates := reb.rebates
    total_rebate_value := rebateTotal reb.rebates
    rebate_count := reb.rebates.length
    usage_advice := u.advice
    usage_total_annual_savings := u.annual_savings
    has_solar := b.has_solar
    total_savings := m.annual_savings + rebateTotal reb.rebates + usageComponent }

/-- Snapshot of one analysis job as held by the JobStore.  Modelled from
the spec: status, progress (0-100 integer), detected-entity hint, chosen
execution-strategy tag, and the final result once available (§3, §4.3). -/
structure JobState where
  status : Status
  progress : ℕ
  company_detected : Option String
  strategy_tag : Strategy
  result : Option NormalizedResult
deriving DecidableEq, Repr

/-- Modelled from the spec: the caller may request the coordinated
strategy; the Orchestrator checks availability and silently downgrades to
standalone when it is unavailable (§4.1). -/
def selectStrategy (use_coordinated coordinated_available : Bool) : Strategy :=
  if use_coordinated && coordinated_available then Strategy.coordinated
  else Strategy.standalone

/-- Number of pipeline stages (bill-analysis, market-research, rebate-hunt,
usage-optimization, savings-synthesis).  Modelled from the spec (§4.1). -/
def numStages : ℕ := 5

/-- Progress contribution per stage: even split, 100 / numStages.
Modelled from the spec (§4.1: "even split: 100/num-stages per stage"). -/
def stageShare : ℕ := 100 / numStages

/-- Modelled from the spec: the sequence of externally observable JobStore
snapshots of one job.  The job is created `pending`, transitions to
`running`, and the Orchestrator updates progress after each stage; the
detected-entity hint comes from the bill-analysis stage specifically; if
bill-analysis fails the job fails immediately, otherwise every later stage
is attempted (failures absorbed into defaults) and the job completes with
the normalized result (§4.1). -/
def jobTrace (use_coordinated coordinated_available : Bool)
    (so : StageOutcomes) : List JobState :=
  let tag := selectStrategy use_coordinated coordinated_available
  let s0 : JobState :=
    { status := Status.pending, progress := 0, company_detected := none,
      strategy_tag := tag, result := none }
  let s1 : JobState := { s0 with status := Status.running }
  match so.bill with
  | none => [s0, s1, { s1 with status := Status.failed }]
  | some b =>
    let s2 := { s1 with progress := 1 * stageShare,
                        company_detected := some b.retailer }
    let s3 := { s2 with progress := 2 * stageShare }
    let s4 := { s3 with progress := 3 * stageShare }
    let s5 := { s4 with progress := 4 * stageShare }
    let s6 := { s5 with status := Status.completed,
                        progress := 5 * stageShare,
                        result := some (Normalize tag so) }
    [s0, s1, s2, s3, s4, s5, s6]

/-- The final JobStore snapshot of a job's trace. -/
def lastState (use_coordinated coordinated_available : Bool)
    (so : StageOutcomes) : JobState :=
  ((jobTrace use_coordinated coordinated_available so).getLast?).getD
    { status := Status.pending, progress := 0, company_detected := none,
      strategy_tag := selectStrategy use_coordinated coordinated_available,
      result := none }

/-- Error taxonomy of the read-only query surface.  Modelled from the
spec (§7): `NotFoundError`, `NotReadyError`, `JobFailedError`. -/
inductive ReporterError where
  | NotFoundError
  | NotReadyError
  | JobFailedError
deriving DecidableEq, Repr

/-- Modelled from the spec: `GetStatus(jobId) → (status, progress,
detectedHint)`, failing with `NotFoundError` for unknown ids (§4.5).  The
argument is the JobStore lookup result for the requested id. -/
def GetStatus (j : Option JobState) :
    Except ReporterError (Status × ℕ × Option String) :=
  match j with
  | none => Except.error ReporterError.NotFoundError
  | some s => Except.ok (s.status, s.progress, s.company_detected)

/-- Modelled from the spec: `GetResult(jobId) → NormalizedResult`, failing
with `NotFoundError` for unknown ids, `JobFailedError` if status =
`failed`, and `NotReadyError` if status ≠ `completed` (§4.5). -/
def GetResult (j : Option JobState) :
    Except ReporterError NormalizedResult :=
  match j with
  | none => Except.error ReporterError.NotFoundError
  | some s =>
    if s.status = Status.failed then Except.error ReporterError.JobFailedError
    else
      match s.status, s.result with
      | Status.completed, some r => Except.ok r
      | _, _ => Except.error ReporterError.NotReadyError

/-- Diagnostic counters of the energy-bill sanity check, as rendered by
the front-end validation-error display (part_001, lines 697-708):
`energy_indicators_found`, `australian_energy_terms_found`,
`recognized_energy_company`, `non_energy_indicators_found`. -/
structure ValidationDetails where
  energy_indicators_found : ℕ
  australian_energy_terms_found : ℕ
  recognized_energy_company : Bool
  non_energy_indicators_found : ℕ
deriving DecidableEq, Repr

/-- The uploaded document as seen by the pre-check, abstracted to the
indicator counts the check inspects.  Modelled from the spec: the
pre-check looks for recognized energy-domain or recognized-retailer
indicators (§4.1); the counter names come from the front-end display. -/
structure Document where
  energy_indicators : ℕ
  australian_energy_terms : ℕ
  recognized_company : Bool
  non_energy_indicators : ℕ
deriving DecidableEq, Repr

/-- Modelled from the spec: the submission pre-check passes when the
document carries recognized energy-domain indicators or a recognized
retailer (§4.1: failure is the "absence of recognized energy-domain or
recognized-retailer indicators"). -/
def looksLikeEnergyBill (d : Document) : Bool :=
  decide (0 < d.energy_indicators) || decide (0 < d.australian_energy_terms)
    || d.recognized_company

/-- Structured 400 payload returned on validation failure, as consumed by
the front-end (part_001, lines 380-392): `error`, `tips`,
`supported_companies`, `validation_details`. -/
structure ValidationPayload where
  error : String
  tips : List String
  supported_companies : List String
  validation_details : ValidationDetails
deriving DecidableEq, Repr

/-- Modelled from the spec: the tips list accompanying a validation
failure; the end-to-end scenario requires it to be non-empty (§8:
"`tips` non-empty"). -/
def validationTips : List String :=
  ["Upload a recent Australian energy bill",
   "Make sure the document shows your retailer and usage",
   "PDF or image files are supported"]

/-- Modelled from the spec: the structured validation payload carrying an
error message, tips, the supported-companies list and the diagnostic
counters of the failed pre-check (§6). -/
def validationPayload (d : Document) (companies : List String) :
    ValidationPayload :=
  { error := "This document does not appear to be an energy bill"
    tips := validationTips
    supported_companies := companies
    validation_details :=
      { energy_indicators_found := d.energy_indicators
        australian_energy_terms_found := d.australian_energy_terms
        recognized_energy_company := d.recognized_company
        non_energy_indicators_found := d.non_energy_indicators } }

/-- Successful `POST /upload-bill` response body, as read by the
front-end (part_001, line 367): `analysis_id`, `processing_method`,
`adk_available`. -/
structure SubmitOk where
  analysis_id : ℕ
  processing_method : String
  adk_available : Bool
deriving DecidableEq, Repr

/-- The JobStore registry: jobs keyed by id (each held with its full
snapshot trace), plus the next fresh id.  Modelled from the spec (§4.3). -/
structure Store where
  jobs : List (ℕ × List JobState)
  next_id : ℕ
deriving DecidableEq, Repr

/-- Modelled from the spec: `Submit(fileBytes, localeHints) → jobId`.
If the document fails the energy-bill pre-check, submission fails
synchronously with the structured validation payload and no job is
created; otherwise a job is created under a fresh id, the strategy is
selected (silently downgrading to standalone when the coordinated
strategy is unavailable) and the job's asynchronous execution trace is
registered (§4.1, §6). -/
def Submit (st : Store) (companies : List String) (d : Document)
    (use_coordinated coordinated_available : Bool) (so : StageOutcomes) :
    Except ValidationPayload SubmitOk × Store :=
  if looksLikeEnergyBill d then
    let tag := selectStrategy use_coordinated coordinated_available
    (Except.ok { analysis_id := st.next_id,
                 processing_method := tag.methodString,
                 adk_available := coordinated_available },
     { jobs := st.jobs ++
         [(st.next_id, jobTrace use_coordinated coordinated_available so)],
       next_id := st.next_id + 1 })
  else
    (Except.error (validationPayload d companies), st)

/-- HTTP status code of a submission outcome.  Modelled from the spec:
validation failure is surfaced as `400` with the structured payload (§6);
a successful submission returns the job id (200). -/
def submitHttpStatus (r : Except ValidationPayload SubmitOk) : ℕ :=
  match r with
  | Except.error _ => 400
  | Except.ok _ => 200

/-- JS `x || y` over an optional numeric field: an absent field and the
number 0 are both falsy and fall through to the fallback. -/
def jsOrQ (x : Option ℚ) (y : ℚ) : ℚ :=
  match x with
  | some v => if v = 0 then y else v
  | none => y

/-- From src (part_001, lines 452-466, `getBillingPeriodText`): the
annualization multiplier is `billingContext.annual_multiplier || 4` when
`billingContext?.period_type === 'quarterly'`, and 1 otherwise. -/
def billingMultiplier (bc : Option BillingContext) : ℚ :=
  match bc with
  | some c =>
    if c.period_type = "quarterly" then jsOrQ (some c.annual_multiplier) 4
    else 1
  | none => 1

/-- From src (part_001, line 990, bill-analysis card):
`billData.quarterly_cost || billData.total_cost || billData.total_amount
|| 712.5`. -/
def displayedQuarterlyCost (bd : BillData) : ℚ :=
  jsOrQ bd.quarterly_cost
    (jsOrQ bd.total_cost (jsOrQ bd.total_amount (1425 / 2)))

/-- From src (part_001, line 1001, bill-analysis card): the displayed
annual cost is `quarterlyCost * billing.multiplier`. -/
def displayedAnnualCost (r : NormalizedResult) : ℚ :=
  displayedQuarterlyCost r.bill_data *
    billingMultiplier (some r.billing_context)

/-- From src (part_001, lines 299-305): the standalone progress-step ids
(5 steps). -/
def stepIds : List String :=
  ["upload", "parsing", "market", "rebates", "summary"]

/-- From src (part_001, lines 307-314): the ADK progress-step ids
(6 steps). -/
def adkStepIds : List String :=
  ["adk_init", "real_bill", "real_market", "real_rebates", "real_usage",
   "synthesis"]

/-- From src (part_001, line 410, `checkProgress`): the active step list
is `adkSteps` when `processingMethod === 'adk_integrated'`, else `steps`. -/
def currentStepsOf (processing_method : Option String) : List String :=
  if processing_method = some "adk_integrated" then adkStepIds else stepIds

/-- From src (part_001, line 411, `checkProgress`): the displayed step
index is `Math.floor((progress / 100) * currentSteps.length)`, here in
exact arithmetic (for integer progress 0-100 and step counts 5 and 6 the
double-precision evaluation agrees with the exact floor). -/
def clientStepIndex (processing_method : Option String) (progress : ℕ) : ℕ :=
  progress * (currentStepsOf processing_method).length / 100

/-- From src (part_001, lines 1241-1296, total-savings card): the
component figures are `max_annual_savings`, `total_rebate_value`, and —
only in the `adk_integrated` branch — `total_annual_savings`, each
defaulted to 0; the displayed total potential is
`(marketSavings + rebateSavings + usageSavings) || totalSavings *
billing.multiplier`. -/
def displayedTotalPotential (r : NormalizedResult) : ℚ :=
  let marketSavings := r.market_max_annual_savings
  let rebateSavings := r.total_rebate_value
  let usageSavings :=
    if r.processing_method = "adk_integrated" then
      r.usage_total_annual_savings
    else 0
  let s := marketSavings + rebateSavings + usageSavings
  if s = 0 then r.total_savings * billingMultiplier (some r.billing_context)
  else s

/-- Allowed one-step status transitions of the job state machine.
Modelled from the spec (§4.1): `pending → running → (completed | failed)`;
a status may repeat while work is in flight, terminal states have no
successor at all (the job is immutable once `completed` or `failed`). -/
def statusStepOk : Status → Status → Bool
  | Status.pending, Status.pending => true
  | Status.pending, Status.running => true
  | Status.running, Status.running => true
  | Status.running, Status.completed => true
  | Status.running, Status.failed => true
  | _, _ => false

/-- One observable JobStore update: the status follows an allowed
transition and the progress value does not decrease while running. -/
def stepOk (a b : JobState) : Prop :=
  statusStepOk a.status b.status = true ∧
  (a.status = Status.running → b.status = Status.running →
    a.progress ≤ b.progress)

/-- C1: For every valid submission, the job's status transitions follow
only the order pending → running → (completed or failed), never backward,
no mutation occurs after a terminal state, and progress is a
non-decreasing integer in 0-100 while running. -/
theorem spec_c1_job_state_machine (uc av : Bool) (so : StageOutcomes) :
    List.Chain' stepOk (jobTrace uc av so) ∧
    (∀ s ∈ jobTrace uc av so, s.progress ≤ 100) ∧
    (∀ a b : Status, statusStepOk a b = true →
      (a = Status.pending → b = Status.pending ∨ b = Status.running) ∧
      (a = Status.running → b ≠ Status.pending) ∧
      ((a = Status.completed ∨ a = Status.failed) → False)) := by
  obtain ⟨bill, market, rebate, usage, syn⟩ := so
  refine ⟨?_, ?_, by intro a b h; cases a <;> cases b <;> simp_all [statusStepOk]⟩ <;>
    cases bill <;>
    simp [jobTrace, stepOk, statusStepOk, stageShare, numStages,
      selectStrategy, List.chain'_cons]

/-- C2: If the bill-analysis stage fails, the job ends `failed` and no
NormalizedResult is ever retrievable for that job, whatever the other
stages' outcomes are. -/
theorem spec_c2_bill_failure_is_fatal (uc av : Bool) (so : StageOutcomes)
    (h : so.bill = none) :
    (lastState uc av so).status = Status.failed ∧
    (∀ s ∈ jobTrace uc av so, s.result = none) ∧
    (∀ s ∈ jobTrace uc av so, ∀ r, GetResult (some s) ≠ Except.ok r) := by
  obtain ⟨bill, market, rebate, usage, syn⟩ := so
  cases h
  refine ⟨by simp [lastState, jobTrace], ?_, ?_⟩ <;>
    simp [jobTrace, GetResult, selectStrategy]

/-- C2 witness: a concrete job whose bill-analysis stage failed. -/
theorem spec_c2_bill_failure_witness :
    (lastState true true
        { bill := none, market := none, rebate := none, usage := none,
          synthesis_ok := true }).status = Status.failed :=
  (spec_c2_bill_failure_is_fatal true true
    { bill := none, market := none, rebate := none, usage := none,
      synthesis_ok := true } rfl).1

/-- C3: If bill-analysis succeeded but market-research, rebate-hunt or
usage-optimization failed, the job still ends `completed`, the failed
stage's section of the NormalizedResult carries its stage-defined
defaults (zero savings, empty rebate list), and every field of the
result schema is present (the only nullable field is populated). -/
theorem spec_c3_nonfatal_stage_failures (uc av : Bool) (so : StageOutcomes)
    (b : BillAnalysisPayload) (h : so.bill = some b) :
    (lastState uc av so).status = Status.completed ∧
    (lastState uc av so).result =
      some (Normalize (selectStrategy uc av) so) ∧
    (so.market = none →
      (Normalize (selectStrategy uc av) so).market_max_annual_savings = 0) ∧
    (so.rebate = none →
      (Normalize (selectStrategy uc av) so).applicable_rebates = [] ∧
      (Normalize (selectStrategy uc av) so).total_rebate_value = 0 ∧
      (Normalize (selectStrategy uc av) so).rebate_count = 0) ∧
    (so.usage = none →
      (Normalize (selectStrategy uc av) so).usage_advice = [] ∧
      (Normalize (selectStrategy uc av) so).usage_total_annual_savings = 0) ∧
    ((Normalize (selectStrategy uc av) so).bill_data.quarterly_cost).isSome
      = true ∧
    (∀ s ∈ jobTrace uc av so, s.status = Status.completed →
      s.result.isSome = true) := by
  obtain ⟨bill, market, rebate, usage, syn⟩ := so
  cases h
  refine ⟨by simp [lastState, jobTrace], by simp [lastState, jobTrace],
    ?_, ?_, ?_, by simp [Normalize], ?_⟩
  · rintro rfl
    simp [Normalize, defaultMarketPayload]
  · rintro rfl
    simp [Normalize, defaultRebatePayload, rebateTotal]
  · rintro rfl
    simp [Normalize, defaultUsagePayload]
  · simp [jobTrace]

/-- C3 witness: a concrete job whose bill-analysis succeeded and whose
three middle stages all failed still completes with the defaults. -/
theorem spec_c3_nonfatal_witness :
    (lastState true true
        { bill := some { retailer := "Origin", usage_kwh := 2060,
                         cost := 1425 / 2, has_solar := false,
                         period_quarterly := true },
          market := none, rebate := none, usage := none,
          synthesis_ok := true }).status = Status.completed :=
  (spec_c3_nonfatal_stage_failures true true
    { bill := some { retailer := "Origin", usage_kwh := 2060,
                     cost := 1425 / 2, has_solar := false,
                     period_quarterly := true },
      market := none, rebate := none, usage := none,
      synthesis_ok := true }
    { retailer := "Origin", usage_kwh := 2060, cost := 1425 / 2,
      has_solar := false, period_quarterly := true } rfl).1

/-- C4: A submission requesting the coordinated strategy while it is
unavailable is silently downgraded: submission succeeds (no error), the
client-visible `processing_method` is `standalone`, the job runs under the
standalone tag and still completes. -/
theorem spec_c4_silent_downgrade (st : Store) (companies : List String)
    (d : Document) (so : StageOutcomes) (b : BillAnalysisPayload)
    (hd : looksLikeEnergyBill d = true) (hb : so.bill = some b) :
    (Submit st companies d true false so).1 =
      Except.ok { analysis_id := st.next_id,
                  processing_method := "standalone",
                  adk_available := false } ∧
    selectStrategy true false = Strategy.standalone ∧
    (lastState true false so).status = Status.completed ∧
    (lastState true false so).strategy_tag = Strategy.standalone ∧
    ((lastState true false so).result.map NormalizedResult.processing_method)
      = some "standalone" := by
  obtain ⟨bill, market, rebate, usage, syn⟩ := so
  cases hb
  refine ⟨?_, rfl, ?_, ?_, ?_⟩
  · simp [Submit, hd, selectStrategy, Strategy.methodString]
  · simp [lastState, jobTrace]
  · simp [lastState, jobTrace, selectStrategy]
  · simp [lastState, jobTrace, selectStrategy, Normalize,
      Strategy.methodString]

/-- C4 witness: a concrete valid submission with `use_coordinated = true`
while the coordinated strategy is unavailable. -/
theorem spec_c4_silent_downgrade_witness :
    (Submit { jobs := [], next_id := 0 } ["AGL"]
        { energy_indicators := 3, australian_energy_terms := 2,
          recognized_company := true, non_energy_indicators := 0 }
        true false
        { bill := some { retailer := "AGL", usage_kwh := 2060,
                         cost := 1425 / 2, has_solar := false,
                         period_quarterly := true },
          market := none, rebate := none, usage := none,
          synthesis_ok := true }).1 =
      Except.ok { analysis_id := 0, processing_method := "standalone",
                  adk_available := false } :=
  (spec_c4_silent_downgrade { jobs := [], next_id := 0 } ["AGL"]
    { energy_indicators := 3, australian_energy_terms := 2,
      recognized_company := true, non_energy_indicators := 0 }
    { bill := some { retailer := "AGL", usage_kwh := 2060,
                     cost := 1425 / 2, has_solar := false,
                     period_quarterly := true },
      market := none, rebate := none, usage := none,
      synthesis_ok := true }
    { retailer := "AGL", usage_kwh := 2060, cost := 1425 / 2,
      has_solar := false, period_quarterly := true }
    rfl rfl).1

/-- C5: status/result queries over the store lookup for a job id — an
unknown id yields `NotFoundError` for both queries, a failed job yields
`JobFailedError` on the result query, a not-yet-completed job yields
`NotReadyError`, and a successful result read happens only when the
status is `completed`. -/
theorem spec_c5_reporter_contract (j : Option JobState) :
    (j = none →
      GetStatus j = Except.error ReporterError.NotFoundError ∧
      GetResult j = Except.error ReporterError.NotFoundError) ∧
    (∀ s, j = some s →
      (s.status = Status.failed →
        GetResult j = Except.error ReporterError.JobFailedError) ∧
      ((s.status = Status.pending ∨ s.status = Status.running) →
        GetResult j = Except.error ReporterError.NotReadyError) ∧
      (∀ r, GetResult j = Except.ok r → s.status = Status.completed)) := by
  refine ⟨?_, ?_⟩
  · rintro rfl
    exact ⟨rfl, rfl⟩
  · rintro s rfl
    refine ⟨?_, ?_, ?_⟩
    · intro hs
      simp [GetResult, hs]
    · rintro (hs | hs) <;> simp [GetResult, hs]
    · intro r hr
      by_contra hne
      cases hst : s.status <;> rw [hst] at hne <;>
        (simp [GetResult, hst] at hr; try exact hne rfl)

/-- C5 witness: the three error outcomes and the success-only-when-
completed direction at concrete job states. -/
theorem spec_c5_reporter_witness :
    GetResult (none : Option JobState) =
      Except.error ReporterError.NotFoundError ∧
    GetResult (some (JobState.mk Status.failed 0 none Strategy.standalone none))
      = Except.error ReporterError.JobFailedError ∧
    GetResult (some (JobState.mk Status.pending 0 none Strategy.standalone none))
      = Except.error ReporterError.NotReadyError := by
  refine ⟨((spec_c5_reporter_contract none).1 rfl).2, ?_, ?_⟩
  · exact (((spec_c5_reporter_contract
      (some (JobState.mk Status.failed 0 none Strategy.standalone none))).2
      _ rfl).1 rfl)
  · exact (((spec_c5_reporter_contract
      (some (JobState.mk Status.pending 0 none Strategy.standalone none))).2
      _ rfl).2.1 (Or.inl rfl))

/-- C6: a submission whose document fails the energy-bill pre-check fails
synchronously with the structured validation payload (HTTP 400, error
message, non-empty tips, supported-companies list, diagnostic counters)
and creates no job (the store is unchanged). -/
theorem spec_c6_validation_rejection (st : Store) (companies : List String)
    (d : Document) (uc av : Bool) (so : StageOutcomes)
    (h : looksLikeEnergyBill d = false) :
    (Submit st companies d uc av so).1 =
      Except.error (validationPayload d companies) ∧
    submitHttpStatus (Submit st companies d uc av so).1 = 400 ∧
    (Submit st companies d uc av so).2 = st ∧
    (validationPayload d companies).tips ≠ [] ∧
    (validationPayload d companies).supported_companies = companies ∧
    (validationPayload d companies).validation_details =
      { energy_indicators_found := d.energy_indicators,
        australian_energy_terms_found := d.australian_energy_terms,
        recognized_energy_company := d.recognized_company,
        non_energy_indicators_found := d.non_energy_indicators } := by
  refine ⟨?_, ?_, ?_, ?_, rfl, rfl⟩
  · simp [Submit, h]
  · simp [Submit, h, submitHttpStatus]
  · simp [Submit, h]
  · simp [validationPayload, validationTips]

/-- C6 witness: a plain non-energy document (no indicators at all) is
rejected with the structured payload and the store is untouched. -/
theorem spec_c6_validation_witness :
    (Submit { jobs := [], next_id := 0 } ["AGL", "Origin"]
        { energy_indicators := 0, australian_energy_terms := 0,
          recognized_company := false, non_energy_indicators := 4 }
        true true
        { bill := none, market := none, rebate := none, usage := none,
          synthesis_ok := true }).2 = { jobs := [], next_id := 0 } :=
  (spec_c6_validation_rejection { jobs := [], next_id := 0 }
    ["AGL", "Origin"]
    { energy_indicators := 0, australian_energy_terms := 0,
      recognized_company := false, non_energy_indicators := 4 }
    true true
    { bill := none, market := none, rebate := none, usage := none,
      synthesis_ok := true } rfl).2.2.1

/-- C7: the aggregate total-savings figure of a normalized result is the
market-switch savings plus the rebate total plus the usage-optimization
savings when the coordinated strategy ran, and market plus rebate only
when the standalone strategy ran, each missing component contributing 0;
the savings-synthesis success flag does not change the figure, so on
synthesis failure the total is the sum of the available components. -/
theorem spec_c7_total_savings_sum (tag : Strategy) (so : StageOutcomes) :
    (Normalize tag so).total_savings =
      (so.market.map MarketPayload.annual_savings).getD 0 +
        rebateTotal ((so.rebate.map RebatePayload.rebates).getD []) +
        (if tag = Strategy.coordinated then
          (so.usage.map UsagePayload.annual_savings).getD 0
        else 0) ∧
    (Normalize tag { so with synthesis_ok := false }).total_savings =
      (Normalize tag so).total_savings ∧
    (Normalize tag so).total_savings =
      (Normalize tag so).market_max_annual_savings +
        (Normalize tag so).total_rebate_value +
        (if tag = Strategy.coordinated then
          (Normalize tag so).usage_total_annual_savings
        else 0) := by
  obtain ⟨bill, market, rebate, usage, syn⟩ := so
  refine ⟨?_, rfl, rfl⟩
  cases market <;> cases rebate <;> cases usage <;>
    simp [Normalize, defaultMarketPayload, defaultRebatePayload,
      defaultUsagePayload, rebateTotal]

/-- C8: for a completed job whose bill has a quarterly billing period
(and a nonzero parsed cost, so the front-end's JS falsy-field fallback is
not taken), the reported bill-summary cost equals the cost parsed from
the bill, the annualization multiplier is exactly 4, and the displayed
annual cost is 4 times the quarterly cost. -/
theorem spec_c8_quarterly_annualization (uc av : Bool)
    (so : StageOutcomes) (b : BillAnalysisPayload)
    (hb : so.bill = some b) (hq : b.period_quarterly = true)
    (hc : b.cost ≠ 0) :
    (Normalize (selectStrategy uc av) so).billing_context.period_type
      = "quarterly" ∧
    billingMultiplier
      (some (Normalize (selectStrategy uc av) so).billing_context) = 4 ∧
    displayedQuarterlyCost
      (Normalize (selectStrategy uc av) so).bill_data = b.cost ∧
    displayedAnnualCost (Normalize (selectStrategy uc av) so)
      = 4 * b.cost := by
  obtain ⟨bill, market, rebate, usage, syn⟩ := so
  cases hb
  refine ⟨?_, ?_, ?_, ?_⟩
  · simp [Normalize, billingContextOf, hq]
  · simp [Normalize, billingContextOf, hq, billingMultiplier, jsOrQ]
  · simp [Normalize, displayedQuarterlyCost, jsOrQ, hc]
  · simp [Normalize, billingContextOf, hq, displayedAnnualCost,
      displayedQuarterlyCost, billingMultiplier, jsOrQ, hc]
    ring

/-- C8 witness: the spec's end-to-end scenario — quarterly cost 712.50
(= 1425/2) annualizes to 2850.00. -/
theorem spec_c8_quarterly_witness :
    displayedAnnualCost
      (Normalize (selectStrategy false false)
        (StageOutcomes.mk
          (some (BillAnalysisPayload.mk "Origin" 2060 (1425 / 2) false true))
          none none none true)) = 2850 := by
  have h := spec_c8_quarterly_annualization false false
    (StageOutcomes.mk
      (some (BillAnalysisPayload.mk "Origin" 2060 (1425 / 2) false true))
      none none none true)
    (BillAnalysisPayload.mk "Origin" 2060 (1425 / 2) false true)
    rfl rfl (by norm_num)
  rw [h.2.2.2]
  norm_num

/-- C9: Normalize is a pure, deterministic function — applying it to
equal strategy tags and equal stage-result lists yields identical
NormalizedResult values. -/
theorem spec_c9_normalize_deterministic (tag1 tag2 : Strategy)
    (so1 so2 : StageOutcomes) (ht : tag1 = tag2) (hs : so1 = so2) :
    Normalize tag1 so1 = Normalize tag2 so2 := by
  rw [ht, hs]

/-- C9 witness: two applications of Normalize to the same concrete inputs
agree. -/
theorem spec_c9_normalize_witness :
    Normalize Strategy.coordinated
      (StageOutcomes.mk none none none none true) =
    Normalize Strategy.coordinated
      (StageOutcomes.mk none none none none true) :=
  spec_c9_normalize_deterministic Strategy.coordinated Strategy.coordinated
    (StageOutcomes.mk none none none none true)
    (StageOutcomes.mk none none none none true) rfl rfl

/-- C10: for a status poll with integer progress 0-100, the client's
displayed step index is floor(progress / 100 × N) with N the active step
count — 6 steps when the processing method is `adk_integrated`, 5
otherwise — so the index lies in 0..N and reaches N exactly when
progress = 100. -/
theorem spec_c10_client_step_index (pm : Option String) (p : ℕ)
    (hp : p ≤ 100) :
    clientStepIndex pm p = p * (currentStepsOf pm).length / 100 ∧
    (currentStepsOf pm).length =
      (if pm = some "adk_integrated" then 6 else 5) ∧
    clientStepIndex pm p ≤ (currentStepsOf pm).length ∧
    (clientStepIndex pm p = (currentStepsOf pm).length ↔ p = 100) := by
  refine ⟨rfl, ?_, ?_, ?_⟩ <;>
    by_cases h : pm = some "adk_integrated" <;>
      simp [clientStepIndex, currentStepsOf, h, stepIds, adkStepIds] <;>
        omega

/-- C10 witness: progress 100 under the ADK method reaches step index 6,
and progress 50 under the standalone method sits at step index 2. -/
theorem spec_c10_client_step_witness :
    (100 : ℕ) ≤ 100 ∧
    (clientStepIndex (some "adk_integrated") 100 =
        (currentStepsOf (some "adk_integrated")).length ↔ (100 : ℕ) = 100) ∧
    clientStepIndex none 50 ≤ (currentStepsOf none).length :=
  ⟨le_refl 100,
   (spec_c10_client_step_index (some "adk_integrated") 100 (le_refl 100)).2.2.2,
   (spec_c10_client_step_index none 50 (by norm_num)).2.2.1⟩
